import Mathlib

/-!
# Verification of the eSIM checker backend

A shallow embedding, in Lean 4, of the core logic of the eSIM checker
backend repository:

* the completeness scorer `calculate_data_completeness`
  (`script_enhanced.py`),
* the ICCID lookup helpers `find_order_by_iccid` / `find_esimcard_by_iccid`
  (`script_enhanced.py`),
* the serial reconciliation coordinator `try_fetch_from_all_apis`
  (`script_enhanced.py`) and its parallel variant
  `try_fetch_from_all_apis_parallel` (`script_optimized.py`),
* the field-level merge `ESIMService._extract_esim_data`
  (`pulse/esim_service.py`),
* the bundle matcher `travelroam_find_matching_bundle`
  (`script_enhanced.py`),
* the renewal order state machine
  `RenewalService.verify_checkout_and_complete_order`
  (`pulse/renewal_service.py`).

Python dictionaries coming from the provider JSON APIs are modelled as
structures of `Option`-typed fields (`none` = key absent / value `null`);
`dict.get(k, d)` becomes `Option.getD`.  Numeric JSON payloads are
modelled as `ℚ` (the concrete quantities the properties mention are exact
binary floats, on which Python float arithmetic agrees with `ℚ`).
HTTP calls, the Stripe gateway, the database and the system clock are
external collaborators: every network fetch is a parameter of type
`Except PyErr _` (an exception or a decoded payload), timestamp parsing
and the current instant are parameters of the merge.
-/

namespace ESim

/-- An opaque Python exception (`AuthenticationError`, `APIError`,
network errors, ...); the code under study only ever catches these
wholesale, so the payload is just a message. -/
structure PyErr where
  msg : String
deriving Repr, DecidableEq

/-- `APIProvider` enum from `script_enhanced.py`. -/
inductive APIProvider
  | AIRHUB
  | ESIMCARD
  | TRAVELROAM
deriving Repr, DecidableEq

/-- Python truthiness of an optional string (`None` and `""` are falsy). -/
def pyTruthy : Option String → Bool
  | none => false
  | some s => s ≠ ""

/-- Python `str.lower` (the ICCIDs, statuses and bundle names under study
are ASCII, where `Char.toLower` agrees with Python). -/
def pyLower (s : String) : String := ⟨s.data.map Char.toLower⟩

/-- Python `str.strip` with no argument: remove leading and trailing
whitespace. -/
def pyStrip (s : String) : String :=
  ⟨((s.data.dropWhile Char.isWhitespace).reverse.dropWhile Char.isWhitespace).reverse⟩

/-- Python's substring test `needle in hay`. -/
def pyIn (needle hay : String) : Bool := decide (needle.data <:+: hay.data)

/- Batteries marks the core `Rat` arithmetic `@[irreducible]`, which
blocks `decide`'s evaluation of concrete rational facts; restore the
default reducibility (this does not affect the kernel). -/
set_option allowUnsafeReducibility true in
attribute [semireducible] Rat.add Rat.sub Rat.mul Rat.inv

/-- `calculate_data_completeness` from `script_enhanced.py` (lines
1148-1178).  The three arguments are Python values which may be `None`
(`none`) or a string; `pyStrip` models Python `str.strip`. -/
def calculate_data_completeness (data_consumed data_remaining status : Option String) : Nat :=
  let zeroLike : List String := ["", "0", "0.0", "0 GB", "0 MB"]
  let part1 : Nat :=
    match data_consumed with
    | none => 0
    | some s => if s ≠ "" ∧ s ≠ "N/A" ∧ pyStrip s ∉ zeroLike then 50 else 0
  let part2 : Nat :=
    match data_remaining with
    | none => 0
    | some s => if s ≠ "" ∧ s ≠ "N/A" ∧ pyStrip s ∉ zeroLike then 50 else 0
  let part3 : Nat :=
    if data_consumed ≠ none ∨ data_remaining ≠ none then 30 else 0
  let part4 : Nat :=
    match status with
    | none => 0
    | some s => if s ≠ "" ∧ pyLower s ∈ ["active", "enabled", "installed"] then 20 else 0
  part1 + part2 + part3 + part4

/-- The scoring rule exactly as the specification words it: the +30 is
granted unconditionally whenever the record was found at all (the scorer
is only invoked on found records), regardless of the usage fields. -/
def spec_completeness (found : Bool) (data_consumed data_remaining status : Option String) : Nat :=
  let zeroLike : List String := ["", "0", "0.0", "0 GB", "0 MB"]
  let part1 : Nat :=
    match data_consumed with
    | none => 0
    | some s => if s ≠ "" ∧ s ≠ "N/A" ∧ pyStrip s ∉ zeroLike then 50 else 0
  let part2 : Nat :=
    match data_remaining with
    | none => 0
    | some s => if s ≠ "" ∧ s ≠ "N/A" ∧ pyStrip s ∉ zeroLike then 50 else 0
  let part3 : Nat := if found then 30 else 0
  let part4 : Nat :=
    match status with
    | none => 0
    | some s => if s ≠ "" ∧ pyLower s ∈ ["active", "enabled", "installed"] then 20 else 0
  part1 + part2 + part3 + part4

/-- C5 (counterexample): on the input `(None, None, "Active")` — a found
record whose usage fields are both `null` — the code returns 20, while the
claimed rule (`+30` for any found record, regardless of the usage
fields, plus `+20` for an active-like status) demands 50.  So the claim
as stated is false. -/
theorem calculate_data_completeness_plus30_counterexample :
    calculate_data_completeness none none (some "Active") = 20 ∧
    spec_completeness true none none (some "Active") = 50 ∧
    calculate_data_completeness none none (some "Active") ≠
      spec_completeness true none none (some "Active") := by
  refine ⟨by decide, by decide, by decide⟩

/-- C5 (amended): `calculate_data_completeness` is the additive sum of
+50 for each of `data_consumed` / `data_remaining` that is present and not
a zero-like placeholder ("", "0", "0.0", "0 GB", "0 MB", nor "N/A"),
+30 if **at least one of the two usage fields is not `None`** (rather
than unconditionally for every found record), and +20 if the status is
one of Active / Enabled / Installed case-insensitively; the score is
always in `[0, 150]`. -/
theorem calculate_data_completeness_amended (dc dr st : Option String) :
    calculate_data_completeness dc dr st
      = spec_completeness (dc ≠ none ∨ dr ≠ none) dc dr st ∧
    calculate_data_completeness dc dr st ≤ 150 := by
  constructor
  · rcases dc with _ | s₁ <;> rcases dr with _ | s₂ <;>
      simp [calculate_data_completeness, spec_completeness]
  · rcases dc with _ | s₁ <;> rcases dr with _ | s₂ <;> rcases st with _ | s₃ <;>
      simp only [calculate_data_completeness] <;> split_ifs <;> omega

/-! ## Renewal order state machine (`pulse/renewal_service.py`) -/

/-- Python `str.upper` (ASCII inputs). -/
def pyUpper (s : String) : String := ⟨s.data.map Char.toUpper⟩

/-- The order's `provider_response` JSON bag over its lifetime:
the renewal parameters written by `create_renewal_order`, the provider's
response written on successful fulfillment, or the
`{'error': ..., 'payment_successful': True}` record written when the
provider call raised. -/
inductive OrderContext
  | params (planName packageId countryCode : String) (renewalDays : Nat)
  | providerResult (resp : String)
  | providerFailure (errorDetail : String) (paymentSuccessful : Bool)
deriving Repr, DecidableEq

/-- The persistent state touched by
`RenewalService.verify_checkout_and_complete_order`: one `RenewalOrder`
row, its one-to-one `PaymentTransaction` row, and two instrumentation
counters — how many times a provider fulfillment operation
(`_process_with_provider`) was invoked and how many times
`StripePaymentService.create_refund` was invoked.  (`create_refund`
exists in `payment_service.py` but has no caller anywhere in the
repository, so no transition below ever increments `refundCalls`.) -/
structure RenewalState where
  orderStatus : String
  orderContext : OrderContext
  orderCompletedAtSet : Bool
  paymentStatus : String
  paymentCompletedAtSet : Bool
  fulfillCalls : Nat
  refundCalls : Nat
deriving Repr, DecidableEq

/-- `RenewalService.verify_checkout_and_complete_order`
(`pulse/renewal_service.py`, lines 214-302), given the payment gateway's
authoritative `payment_status` for the checkout session and the outcome
of the provider fulfillment call (`_process_with_provider`): an
exception (`.error`) or a provider response (`.ok`).

The returned state is the *durable* (committed) one.  Step 1 is one
`transaction.atomic()` block: store the uppercased gateway status on the
payment; on `"paid"` the order goes to `PAID` and the block commits.  On
any other status the code assigns `order.status = 'FAILED'` and then
raises `RenewalError` *inside the same atomic block* (line 257), so
Django rolls the whole block back — durably, neither the payment-status
write nor the `FAILED` write survives, and the exception propagates.
Step 2 (separate transaction, only entered at `PAID`): call the provider
once; on success the order goes to `COMPLETED` and the payment to
`SUCCEEDED`; on any exception (raised before anything in that block was
written) a fresh atomic block commits `PROVIDER_FAILED` with the failure
detail and the `payment_successful: True` flag, no exception is
re-raised, no refund is issued and the provider is not called again. -/
def verify_checkout_and_complete_order (paymentStatus : String)
    (fulfill : Except PyErr String) (s : RenewalState) :
    RenewalState × Except PyErr Unit :=
  -- Step 1: verify payment with Stripe (separate transaction)
  let s1 := { s with paymentStatus := pyUpper paymentStatus }
  if paymentStatus = "paid" then
    let s2 := { s1 with orderStatus := "PAID" }
    -- Step 2: process renewal with provider (separate transaction)
    match fulfill with
    | .ok resp =>
        ({ s2 with
            orderStatus := "COMPLETED"
            orderContext := .providerResult resp
            orderCompletedAtSet := true
            paymentStatus := "SUCCEEDED"
            paymentCompletedAtSet := true
            fulfillCalls := s2.fulfillCalls + 1 }, .ok ())
    | .error e =>
        ({ s2 with
            orderStatus := "PROVIDER_FAILED"
            orderContext := .providerFailure e.msg true
            fulfillCalls := s2.fulfillCalls + 1 }, .ok ())
  else
    -- the raise inside the atomic block rolls back both the payment
    -- write (`s1`) and the `FAILED` write: durably nothing changes
    (s, .error ⟨"Payment not successful: " ++ paymentStatus⟩)

/-- A typical order state right after checkout was initiated. -/
def pendingState : RenewalState :=
  { orderStatus := "PENDING"
    orderContext := .params "eSIM, 1GB, 7 Days, Turkey, V2" "" "TR" 7
    orderCompletedAtSet := false
    paymentStatus := "PENDING"
    paymentCompletedAtSet := false
    fulfillCalls := 0
    refundCalls := 0 }

/-- C1 (counterexample): a paid order whose fulfillment call raises does
end in `PROVIDER_FAILED` with the failure detail and the
payment-captured flag, but its `PaymentTransaction` is left at `"PAID"`
(the uppercased Stripe `payment_status` written in step 1) — it is never
`"SUCCEEDED"`, which is assigned only on full completion.  So the
conjunct "the order's PaymentTransaction remains Succeeded" of the claim
is false on the code. -/
theorem verify_checkout_provider_failure_counterexample :
    (verify_checkout_and_complete_order "paid"
        (.error ⟨"TravelRoam API down"⟩) pendingState).1.orderStatus = "PROVIDER_FAILED" ∧
    (verify_checkout_and_complete_order "paid"
        (.error ⟨"TravelRoam API down"⟩) pendingState).1.paymentStatus = "PAID" ∧
    (verify_checkout_and_complete_order "paid"
        (.error ⟨"TravelRoam API down"⟩) pendingState).1.paymentStatus ≠ "SUCCEEDED" := by
  refine ⟨by decide, by decide, by decide⟩

/-- C1 (amended): for every order whose payment confirms as paid, if the
provider fulfillment call raises any exception, the order is left in
`PROVIDER_FAILED` with the failure detail and the explicit
`payment_successful: True` flag in its context, the function returns
normally (the failure is never re-raised), the `PaymentTransaction`
keeps the captured status `"PAID"` written at payment confirmation — it
is never reverted to a failed or refunded status (`"SUCCEEDED"` itself
is written only on full completion) — no refund call is issued, and the
fulfillment call is made exactly once (no automatic retry). -/
theorem verify_checkout_provider_failure_amended (e : PyErr) (s : RenewalState) :
    (verify_checkout_and_complete_order "paid" (.error e) s).1.orderStatus
        = "PROVIDER_FAILED" ∧
    (verify_checkout_and_complete_order "paid" (.error e) s).1.orderContext
        = .providerFailure e.msg true ∧
    (verify_checkout_and_complete_order "paid" (.error e) s).1.paymentStatus = "PAID" ∧
    (verify_checkout_and_complete_order "paid" (.error e) s).1.refundCalls = s.refundCalls ∧
    (verify_checkout_and_complete_order "paid" (.error e) s).1.fulfillCalls
        = s.fulfillCalls + 1 ∧
    (verify_checkout_and_complete_order "paid" (.error e) s).2 = .ok () := by
  refine ⟨rfl, rfl, rfl, rfl, rfl, rfl⟩

/-- C2: for every gateway status other than `"paid"`, the flow
terminates with a raised `RenewalError` and the provider fulfillment
operation is never invoked — but, because the `RenewalError` is raised
inside the very `transaction.atomic()` block that wrote
`order.status = 'FAILED'`, that write is rolled back: durably the whole
state is unchanged, so an order that was `PENDING` is still `PENDING`,
not `FAILED` as both the claim and the immediately preceding write
intend. -/
theorem verify_checkout_not_paid (ps : String) (f : Except PyErr String)
    (s : RenewalState) (h : ps ≠ "paid") :
    (verify_checkout_and_complete_order ps f s).1 = s ∧
    (verify_checkout_and_complete_order ps f s).1.fulfillCalls = s.fulfillCalls ∧
    (verify_checkout_and_complete_order ps f s).2
      = .error ⟨"Payment not successful: " ++ ps⟩ := by
  simp [verify_checkout_and_complete_order, h]

/-- C2 (witness): at the concrete gateway status `"unpaid"` on a
`PENDING` order, the durable order status after the call is still
`"PENDING"` — not the claimed `"FAILED"` — while fulfillment was indeed
never attempted. -/
theorem verify_checkout_not_paid_witness :
    (verify_checkout_and_complete_order "unpaid" (.ok "resp") pendingState).1
        = pendingState ∧
    (verify_checkout_and_complete_order "unpaid" (.ok "resp") pendingState).1.fulfillCalls
        = pendingState.fulfillCalls ∧
    (verify_checkout_and_complete_order "unpaid" (.ok "resp") pendingState).2
      = .error ⟨"Payment not successful: " ++ "unpaid"⟩ :=
  verify_checkout_not_paid "unpaid" (.ok "resp") pendingState (by decide)

/-! ## ICCID lookup helpers (`script_enhanced.py`) -/

/-- One AirHub order dictionary, with the keys the code under study
reads.  `none` models an absent key. -/
structure AirHubOrder where
  orderId : Option String := none
  simID : Option String := none
  iccid : Option String := none
  ICCID : Option String := none
  planName : Option String := none
  isActive : Bool := false
  purchaseDate : Option String := none
  vaildity : Option String := none
  capacity : Option String := none
  capacityUnit : Option String := none
  dataConsumed : Option String := none
  dataRemaining : Option String := none
deriving Repr, DecidableEq

/-- `order.get('simID', '') or order.get('iccid', '') or order.get('ICCID', '')`:
the first truthy of the three keys, else the last default. -/
def airhubOrderIccid (o : AirHubOrder) : String :=
  let a := o.simID.getD ""
  let b := o.iccid.getD ""
  let c := o.ICCID.getD ""
  if a ≠ "" then a else if b ≠ "" then b else c

/-- The ICCID normalization both finders apply to the query and to each
record: `strip()`, remove `' '` and `'-'`, `lower()`. -/
def normalizeIccid (s : String) : String :=
  pyLower ⟨(pyStrip s).data.filter (fun c => ¬ (c = ' ' ∨ c = '-'))⟩

/-- The loop body of `find_order_by_iccid`: return the first order whose
cleaned ICCID equals the cleaned query or contains it as a substring. -/
def find_order_by_iccid_loop (search : String) : List AirHubOrder → Option AirHubOrder
  | [] => none
  | o :: rest =>
      let clean := normalizeIccid (airhubOrderIccid o)
      if search = clean ∨ pyIn search clean then some o
      else find_order_by_iccid_loop search rest

/-- `find_order_by_iccid` from `script_enhanced.py` (lines 1072-1109). -/
def find_order_by_iccid (orders : List AirHubOrder) (iccid : String) : Option AirHubOrder :=
  let search := normalizeIccid iccid
  if search = "" then none
  else find_order_by_iccid_loop search orders

/-- One eSIMCard SIM dictionary (the keys the code reads). -/
structure EsimCardSim where
  id : Option String := none
  iccid : Option String := none
  ICCID : Option String := none
  status : Option String := none
  last_bundle : Option String := none
  created_at : Option String := none
  qr_code_text : Option String := none
  qr_code : Option String := none
  activation_code : Option String := none
  lpa : Option String := none
  apn : Option String := none
deriving Repr, DecidableEq

/-- `esim.get('iccid', '') or esim.get('ICCID', '')`. -/
def esimCardIccid (e : EsimCardSim) : String :=
  let a := e.iccid.getD ""
  if a ≠ "" then a else e.ICCID.getD ""

/-- The loop body of `find_esimcard_by_iccid`. -/
def find_esimcard_by_iccid_loop (search : String) : List EsimCardSim → Option EsimCardSim
  | [] => none
  | e :: rest =>
      let clean := normalizeIccid (esimCardIccid e)
      if search = clean ∨ pyIn search clean then some e
      else find_esimcard_by_iccid_loop search rest

/-- `find_esimcard_by_iccid` from `script_enhanced.py` (lines 1112-1145). -/
def find_esimcard_by_iccid (esims : List EsimCardSim) (iccid : String) : Option EsimCardSim :=
  let search := normalizeIccid iccid
  if search = "" then none
  else find_esimcard_by_iccid_loop search esims

/-- The match rule as the claim words it: the normalized ICCIDs are
equal, or the normalized query is a proper substring of the record's
normalized ICCID. -/
def claimIccidMatch (q r : String) : Bool :=
  q = r ∨ (q ≠ r ∧ q.data <:+: r.data)

theorem claimIccidMatch_eq (q r : String) :
    claimIccidMatch q r = (q = r ∨ pyIn q r : Bool) := by
  simp only [claimIccidMatch, pyIn]
  by_cases h : q = r
  · subst h; simp [List.infix_refl]
  · simp [h]

/-- C10 (counterexample): for the empty query ICCID, the helpers return
no record even when the claimed match condition (normalized equality or
proper substring) holds for the first record: the normalized empty query
is a proper substring of `"89"`, yet `find_order_by_iccid` returns
`none`. -/
theorem find_by_iccid_empty_query_counterexample :
    find_order_by_iccid [{ simID := some "89" }] "" = none ∧
    claimIccidMatch (normalizeIccid "")
      (normalizeIccid (airhubOrderIccid { simID := some "89" })) = true ∧
    find_esimcard_by_iccid [{ iccid := some "89" }] "" = none ∧
    claimIccidMatch (normalizeIccid "")
      (normalizeIccid (esimCardIccid { iccid := some "89" })) = true := by
  refine ⟨by decide, by decide, by decide, by decide⟩

/-- C10 (amended): provided the normalized query ICCID is nonempty, the
lookup helpers return the first record in list order whose normalized
ICCID equals the normalized query or contains it as a proper substring;
an empty (or whitespace/hyphen-only) query returns no match. -/
theorem find_by_iccid_amended (orders : List AirHubOrder) (esims : List EsimCardSim)
    (q : String) (h : normalizeIccid q ≠ "") :
    find_order_by_iccid orders q
      = orders.find? (fun o => claimIccidMatch (normalizeIccid q)
          (normalizeIccid (airhubOrderIccid o))) ∧
    find_esimcard_by_iccid esims q
      = esims.find? (fun e => claimIccidMatch (normalizeIccid q)
          (normalizeIccid (esimCardIccid e))) := by
  constructor
  · show find_order_by_iccid orders q = _
    rw [find_order_by_iccid]
    simp only [h, if_false]
    induction orders with
    | nil => rfl
    | cons o rest ih =>
        rw [find_order_by_iccid_loop]
        by_cases hm : (normalizeIccid q = normalizeIccid (airhubOrderIccid o)
            ∨ pyIn (normalizeIccid q) (normalizeIccid (airhubOrderIccid o)) = true)
        · simp [List.find?_cons, claimIccidMatch_eq, hm]
        · simp [List.find?_cons, claimIccidMatch_eq, hm, ih]
  · show find_esimcard_by_iccid esims q = _
    rw [find_esimcard_by_iccid]
    simp only [h, if_false]
    induction esims with
    | nil => rfl
    | cons e rest ih =>
        rw [find_esimcard_by_iccid_loop]
        by_cases hm : (normalizeIccid q = normalizeIccid (esimCardIccid e)
            ∨ pyIn (normalizeIccid q) (normalizeIccid (esimCardIccid e)) = true)
        · simp [List.find?_cons, claimIccidMatch_eq, hm]
        · simp [List.find?_cons, claimIccidMatch_eq, hm, ih]

/-- C10 (witness): the amended theorem applied to a concrete nonempty
query against concrete one-record lists. -/
theorem find_by_iccid_amended_witness :
    find_order_by_iccid [{ simID := some "8988 30-77" }] " 898830 "
      = [({ simID := some "8988 30-77" } : AirHubOrder)].find?
          (fun o => claimIccidMatch (normalizeIccid " 898830 ")
            (normalizeIccid (airhubOrderIccid o))) ∧
    find_esimcard_by_iccid [{ iccid := some "8988 30-77" }] " 898830 "
      = [({ iccid := some "8988 30-77" } : EsimCardSim)].find?
          (fun e => claimIccidMatch (normalizeIccid " 898830 ")
            (normalizeIccid (esimCardIccid e))) :=
  find_by_iccid_amended [{ simID := some "8988 30-77" }]
    [{ iccid := some "8988 30-77" }] " 898830 " (by decide)

/-! ## Bundle matcher (`script_enhanced.py`, `travelroam_find_matching_bundle`) -/

/-- `re.search(r'(\\d+)\\s*<suffix>', s, re.IGNORECASE)`, returning group 1:
the leftmost maximal digit run followed by optional whitespace and the
(lowercase) `suffix`.  `prevDigit` records whether the previous character
was a digit, so that only run starts are tried — starting inside a digit
run cannot match, since the shortened run is then followed by a digit,
which fails the whitespace-then-suffix tail. -/
def scanNumAux (suffix : List Char) (prevDigit : Bool) : List Char → Option (List Char)
  | [] => none
  | c :: rest =>
      if c.isDigit ∧ prevDigit = false then
        let run := (c :: rest).takeWhile Char.isDigit
        let after := ((c :: rest).dropWhile Char.isDigit).dropWhile Char.isWhitespace
        if suffix <+: after.map Char.toLower then some run
        else scanNumAux suffix true rest
      else scanNumAux suffix c.isDigit rest

/-- Group 1 of `re.search` for digits followed by `GB`, ignoring case. -/
def extract_data_amount (plan : String) : Option String :=
  (scanNumAux "gb".data false plan.data).map (fun l => ⟨l⟩)

/-- Group 1 of `re.search` for digits followed by `Day`, ignoring case. -/
def extract_days (plan : String) : Option String :=
  (scanNumAux "day".data false plan.data).map (fun l => ⟨l⟩)

/-- One TravelRoam catalog entry, with the keys the matcher reads:
`name` is the bundle code (e.g. `"esim_1GB_7D_TR_V2"`), `description`
the display name.  The catalog itself comes from
`travelroam_get_catalog` (an HTTP collaborator) and is a parameter here. -/
structure CatBundle where
  name : Option String := none
  description : Option String := none
deriving Repr, DecidableEq

/-- The loop of `travelroam_find_matching_bundle` (lines 756-775): for
each bundle, first the exact (substring-tolerant, case-insensitive)
description match, then the token match on the bundle code. -/
def travelroam_find_matching_bundle_loop (current_plan : String)
    (country_code : Option String) (data_amount days : Option String) :
    List CatBundle → String
  | [] => ""
  | b :: rest =>
      let bundle_name := b.name.getD ""
      let bundle_desc := pyLower (b.description.getD "")
      if pyIn (pyLower current_plan) bundle_desc || pyIn bundle_desc (pyLower current_plan) then
        bundle_name
      else
        let match_data := data_amount.any fun d => pyIn (d ++ "gb") (pyLower bundle_name)
        let match_days := days.any fun d => pyIn (d ++ "d") (pyLower bundle_name)
        let ccT := pyTruthy country_code
        let match_country := ccT && pyIn (pyLower (country_code.getD "")) (pyLower bundle_name)
        if match_data && match_days && (match_country || !ccT) then bundle_name
        else travelroam_find_matching_bundle_loop current_plan country_code
          data_amount days rest

/-- `travelroam_find_matching_bundle` from `script_enhanced.py` (lines
715-779), with the fetched catalog as a parameter (the code scopes the
catalog query by country or by a description search; that is the HTTP
collaborator's input).  The country *name* extracted from the label at
lines 739-743 is only logged, never used in matching, and is not
modelled.  Returns the bundle code, or `""` when nothing matched (the
caller `_process_with_provider` turns `""` into a raised
`RenewalError`). -/
def travelroam_find_matching_bundle (current_plan : String)
    (country_code : Option String) (bundles : List CatBundle) : String :=
  travelroam_find_matching_bundle_loop current_plan country_code
    (extract_data_amount current_plan) (extract_days current_plan) bundles

/-- The match rule as the claim words it, for a single candidate: an
exact case-insensitive substring-tolerant (either direction) match
between the plan label and the description of the entry, or else a bundle
code containing both the extracted data-quantity token (`"<n>gb"`) and
duration token (`"<n>d"`), with the country-code token additionally
required when a country code was supplied. -/
def bundleQualifies (current_plan : String) (country_code : Option String)
    (b : CatBundle) : Bool :=
  let bundle_name := b.name.getD ""
  let bundle_desc := pyLower (b.description.getD "")
  (pyIn (pyLower current_plan) bundle_desc || pyIn bundle_desc (pyLower current_plan)) ||
    ((extract_data_amount current_plan).any (fun d => pyIn (d ++ "gb") (pyLower bundle_name)) &&
     (extract_days current_plan).any (fun d => pyIn (d ++ "d") (pyLower bundle_name)) &&
     (!pyTruthy country_code ||
       pyIn (pyLower (country_code.getD "")) (pyLower bundle_name)))

/-- C8: the matcher returns the bundle code of the first catalog entry
qualifying under the claimed rule — exact description match, or else the
token rule — with no scoring among candidates, and returns the reported
not-found outcome `""` (never an arbitrary bundle) when no entry
qualifies; in particular, for plan label
`"eSIM, 1GB, 7 Days, Turkey, V2"` with no country code, a catalog entry
with bundle code `"esim_1gb_7d_tr_u"` and a non-matching description is
selected via the token rule (data token `1gb`, duration token `7d`). -/
theorem travelroam_find_matching_bundle_spec (current_plan : String)
    (country_code : Option String) (bundles : List CatBundle) :
    travelroam_find_matching_bundle current_plan country_code bundles
      = ((bundles.find? (bundleQualifies current_plan country_code)).map
          (fun b => b.name.getD "")).getD "" ∧
    travelroam_find_matching_bundle "eSIM, 1GB, 7 Days, Turkey, V2" none
      [{ name := some "esim_1gb_7d_tr_u", description := some "Unlimited Lite" }]
      = "esim_1gb_7d_tr_u" := by
  constructor
  · rw [travelroam_find_matching_bundle]
    induction bundles with
    | nil => rfl
    | cons b rest ih =>
        rw [travelroam_find_matching_bundle_loop, List.find?_cons]
        have hcond : bundleQualifies current_plan country_code b
            = ((pyIn (pyLower current_plan) (pyLower (b.description.getD ""))
                || pyIn (pyLower (b.description.getD "")) (pyLower current_plan))
              || ((extract_data_amount current_plan).any
                    (fun d => pyIn (d ++ "gb") (pyLower (b.name.getD "")))
                  && (extract_days current_plan).any
                    (fun d => pyIn (d ++ "d") (pyLower (b.name.getD "")))
                  && ((pyTruthy country_code
                        && pyIn (pyLower (country_code.getD "")) (pyLower (b.name.getD "")))
                      || !pyTruthy country_code))) := by
          rw [bundleQualifies]
          cases hc : pyTruthy country_code <;>
            cases hi : pyIn (pyLower (country_code.getD "")) (pyLower (b.name.getD "")) <;>
            simp [hc, hi]
        cases hE : (pyIn (pyLower current_plan) (pyLower (b.description.getD ""))
            || pyIn (pyLower (b.description.getD "")) (pyLower current_plan)) with
        | true =>
            rw [hE] at hcond
            simp only [Bool.true_or] at hcond
            simp [hcond, hE]
        | false =>
            rw [hE] at hcond
            simp only [Bool.false_or] at hcond
            cases hT : ((extract_data_amount current_plan).any
                  (fun d => pyIn (d ++ "gb") (pyLower (b.name.getD "")))
                && (extract_days current_plan).any
                  (fun d => pyIn (d ++ "d") (pyLower (b.name.getD "")))
                && ((pyTruthy country_code
                      && pyIn (pyLower (country_code.getD "")) (pyLower (b.name.getD "")))
                    || !pyTruthy country_code)) with
            | true =>
                rw [hT] at hcond
                simp [hcond, hE, hT]
            | false =>
                rw [hT] at hcond
                simp [hcond, hE, hT, ih]
  · decide

/-! ## Field-level merge (`pulse/esim_service.py`, `_extract_esim_data`)

The merge inspects, besides the provider payloads, two library
collaborators: ISO-8601 timestamp parsing (`datetime.fromisoformat`
after the `Z → +00:00` replacement) and the current instant
(`datetime.now(end.tzinfo)`, the same absolute instant whatever the
timezone object).  Both are parameters, timestamps being absolute epoch
seconds. -/

/-- Truthiness of an optional JSON number (`None` and `0` are falsy). -/
def pyNumTruthy : Option ℚ → Bool
  | none => false
  | some q => q ≠ 0

/-- Python `str(x)` for a JSON number `x`, modelled up to the properties
the code inspects: zero renders as the zero-like placeholder (`"0.0"`,
as for a float), any other value renders through its digits — never
empty, never `"N/A"`, never zero-like. -/
def pyNumStr (q : ℚ) : String :=
  if q = 0 then "0.0"
  else if q.den = 1 then toString q.num
  else toString q.num ++ "/" ++ toString q.den

/-- The floor of a rational, computed on its reduced representation. -/
def ratFloor (q : ℚ) : Int := Int.fdiv q.num q.den

/-- Python `f"{x:.2f}"` on ℚ: round to cents and print with two
decimals.  (Python rounds half to even; `ratFloor (q * 100 + 1/2)`
rounds half up — the two agree away from exact half-cent ties, and
every concrete value in this development is tie-free.) -/
def toFixed2 (q : ℚ) : String :=
  let c : Int := ratFloor (q * 100 + 1 / 2)
  let sign := if c < 0 then "-" else ""
  let a := c.natAbs
  sign ++ toString (a / 100) ++ "." ++ (if a % 100 < 10 then "0" else "") ++ toString (a % 100)

/-- AirHub activation details (the keys the merge reads). -/
structure Activation where
  activationCode : Option String := none
  apn : Option String := none
deriving Repr, DecidableEq

/-- One eSIMCard package dictionary. -/
structure EsimPackage where
  iccid : Option String := none
  initial_data_quantity : Option ℚ := none
  rem_data_quantity : Option ℚ := none
  initial_data_unit : Option String := none
  rem_data_unit : Option String := none
deriving Repr, DecidableEq

/-- eSIMCard overall-usage dictionary. -/
structure EsimUsage where
  initial_data_quantity : Option ℚ := none
  rem_data_quantity : Option ℚ := none
  rem_data_unit : Option String := none
deriving Repr, DecidableEq

/-- The dictionary `{'esim': ..., 'packages': ..., 'usage': ...}` built
by `check_esimcard_provider` (`script_optimized.py`) and consumed by the
merge (`usage = none` models an empty/absent `overall_usage` dict, which
is falsy in the `elif overall_usage:` test). -/
structure EsimCheckResult where
  esim : EsimCardSim := {}
  packages : List EsimPackage := []
  usage : Option EsimUsage := none
deriving Repr, DecidableEq

/-- TravelRoam eSIM details (the keys the merge and coordinators read). -/
structure TRDetails where
  iccid : Option String := none
  matchingId : Option String := none
  profileStatus : Option String := none
  smdpAddress : Option String := none
  firstInstalledDateTime : Option ℚ := none
deriving Repr, DecidableEq

/-- One assignment of a TravelRoam applied bundle. -/
structure TRAssignment where
  callTypeGroup : Option String := none
  initialQuantity : Option ℚ := none
  remainingQuantity : Option ℚ := none
  startTime : Option String := none
  endTime : Option String := none
deriving Repr, DecidableEq

/-- One TravelRoam applied bundle. -/
structure TRBundle where
  name : Option String := none
  description : Option String := none
  assignments : List TRAssignment := []
deriving Repr, DecidableEq

/-- The `travelroam_get_applied_bundles` response. -/
structure TRBundles where
  bundles : List TRBundle := []
deriving Repr, DecidableEq

/-- The `travelroam_get_location` response. -/
structure TRLocation where
  networkName : Option String := none
  networkBrandName : Option String := none
  country : Option String := none
deriving Repr, DecidableEq

/-- The library collaborators of the merge: `parseISO` models
`datetime.fromisoformat` applied after the `Z → +00:00` replacement
(`none` = the exception the code catches), returning absolute epoch
seconds; `now` is the current instant; `fmtEpochMs` models
`datetime.fromtimestamp(ms / 1000).strftime('%Y-%m-%d %H:%M:%S')`
(`none` = the exception the code catches). -/
structure MergeEnv where
  parseISO : String → Option Int
  now : Int
  fmtEpochMs : ℚ → Option String

/-- The merged record dictionary, initialized with `'N/A'` sentinels. -/
structure Merged where
  order_sim_id : String := "N/A"
  iccid : String := "N/A"
  plan_name : String := "N/A"
  status : String := "N/A"
  purchase_date : String := "N/A"
  validity : String := "N/A"
  data_capacity : String := "N/A"
  data_consumed : String := "N/A"
  data_remaining : String := "N/A"
  activation_code : String := "N/A"
  apn : String := "N/A"
deriving Repr, DecidableEq

/-- Phase 1 of `_extract_esim_data`: extract from the AirHub order. -/
def phase1_airhub (order : Option AirHubOrder) (m : Merged) : Merged :=
  match order with
  | none => m
  | some o =>
    let m := { m with order_sim_id := o.orderId.getD m.order_sim_id }
    let newIccid :=
      if pyTruthy o.simID then o.simID.getD ""
      else if pyTruthy o.iccid then o.iccid.getD ""
      else if pyTruthy o.ICCID then o.ICCID.getD ""
      else m.iccid
    let m := { m with iccid := newIccid }
    let m := { m with plan_name := o.planName.getD m.plan_name }
    let m := { m with status := if o.isActive then "Active" else "Inactive" }
    let m := { m with purchase_date := o.purchaseDate.getD m.purchase_date }
    let newValidity := if pyTruthy o.vaildity then o.vaildity.getD "" else m.validity
    let m := { m with validity := newValidity }
    let m :=
      if pyTruthy o.capacity ∧ o.capacity.getD "" ≠ "N/A" then
        { m with data_capacity := o.capacity.getD "" ++ " " ++ o.capacityUnit.getD "GB" }
      else m
    let m :=
      if pyTruthy o.dataConsumed then { m with data_consumed := o.dataConsumed.getD "" } else m
    if pyTruthy o.dataRemaining then { m with data_remaining := o.dataRemaining.getD "" } else m

/-- Phase 1, activation part: fill activation code and APN if unset. -/
def phase1_activation (activation : Option Activation) (m : Merged) : Merged :=
  match activation with
  | none => m
  | some a =>
    let m :=
      if pyTruthy a.activationCode ∧ m.activation_code = "N/A" then
        { m with activation_code := a.activationCode.getD "" }
      else m
    if pyTruthy a.apn ∧ m.apn = "N/A" then { m with apn := a.apn.getD "" } else m

/-- Phase 2 of `_extract_esim_data`: merge the eSIMCard data (can
override).  The status rule `merged['status'] == 'N/A' or
merged['status'] != esim_status` and the last-resort fallbacks are kept
verbatim. -/
def phase2_esimcard (esimcard : Option EsimCheckResult) (m : Merged) : Merged :=
  match esimcard with
  | none => m
  | some d =>
    let sim := d.esim
    let m :=
      if m.order_sim_id = "N/A" then { m with order_sim_id := sim.id.getD m.order_sim_id }
      else m
    let m := if m.iccid = "N/A" then { m with iccid := sim.iccid.getD m.iccid } else m
    let m :=
      if pyTruthy sim.last_bundle then { m with plan_name := sim.last_bundle.getD "" } else m
    let m :=
      if pyTruthy sim.status then
        (let st := sim.status.getD ""
         if m.status = "N/A" ∨ m.status ≠ st then { m with status := st } else m)
      else m
    let m :=
      if pyTruthy sim.created_at then { m with purchase_date := sim.created_at.getD "" } else m
    let ac :=
      if pyTruthy sim.qr_code_text then sim.qr_code_text
      else if pyTruthy sim.qr_code then sim.qr_code
      else if pyTruthy sim.activation_code then sim.activation_code
      else sim.lpa
    let m :=
      if pyTruthy ac ∧ m.activation_code = "N/A" then { m with activation_code := ac.getD "" }
      else m
    let m := if pyTruthy sim.apn ∧ m.apn = "N/A" then { m with apn := sim.apn.getD "" } else m
    match d.packages with
    | p :: _ =>
      let m :=
        if pyNumTruthy p.initial_data_quantity then
          { m with data_capacity :=
              pyNumStr (p.initial_data_quantity.getD 0) ++ " " ++ p.initial_data_unit.getD "GB" }
        else m
      let m :=
        if m.plan_name ≠ "" ∧ pyIn "Days" m.plan_name then
          match extract_days m.plan_name with
          | some dnum => { m with validity := dnum ++ " days" }
          | none => m
        else m
      let i := p.initial_data_quantity.getD 0
      let r := p.rem_data_quantity.getD 0
      let unit := p.rem_data_unit.getD "GB"
      if i ≠ 0 then
        { m with
            data_consumed := toFixed2 (i - r) ++ " " ++ unit
            data_remaining := pyNumStr r ++ " " ++ unit }
      else m
    | [] =>
      match d.usage with
      | some u =>
        let i := u.initial_data_quantity.getD 0
        let r := u.rem_data_quantity.getD 0
        let unit := u.rem_data_unit.getD "GB"
        let m := if i ≠ 0 then { m with data_capacity := pyNumStr i ++ " " ++ unit } else m
        -- `remaining_data is not None` always holds under `.get(k, 0)`
        let m := { m with data_remaining := pyNumStr r ++ " " ++ unit }
        if i ≠ 0 then { m with data_consumed := toFixed2 (i - r) ++ " " ++ unit } else m
      | none => m

/-- Phase 3 of `_extract_esim_data`, details part. -/
def phase3_details (env : MergeEnv) (trd : Option TRDetails) (m : Merged) : Merged :=
  match trd with
  | none => m
  | some t =>
    let m :=
      if m.order_sim_id = "N/A" then { m with order_sim_id := t.matchingId.getD m.order_sim_id }
      else m
    let m := if m.iccid = "N/A" then { m with iccid := t.iccid.getD m.iccid } else m
    let m :=
      if pyTruthy t.profileStatus ∧ m.status = "N/A" then
        { m with status := t.profileStatus.getD "" }
      else m
    let m :=
      if pyTruthy t.smdpAddress ∧ m.activation_code = "N/A" then
        { m with activation_code := t.smdpAddress.getD "" }
      else m
    if pyNumTruthy t.firstInstalledDateTime ∧ m.purchase_date = "N/A" then
      match env.fmtEpochMs (t.firstInstalledDateTime.getD 0) with
      | some s => { m with purchase_date := s }
      | none => m
    else m

/-- The first assignment with `callTypeGroup == 'data'`
(case-insensitive); the code processes only this one and breaks. -/
def firstDataAssignment (assignments : List TRAssignment) : Option TRAssignment :=
  assignments.find? fun a => pyLower (a.callTypeGroup.getD "") = "data"

/-- The assignment-window tail of the bundles phase (lines 269-287 of
`esim_service.py`): when both `startTime` and `endTime` are nonempty and
both parse, derive `validity` from the window if unset and force
`status := 'Expired'` when the end instant is in the past; a parse
failure of either timestamp (the caught exception) leaves the record
unchanged. -/
def phase3_window (env : MergeEnv) (a : TRAssignment) (m : Merged) : Merged :=
  let st := a.startTime.getD ""
  let et := a.endTime.getD ""
  if st ≠ "" ∧ et ≠ "" then
    match env.parseISO st, env.parseISO et with
    | some ts, some te =>
      let m :=
        if m.validity = "N/A" then
          { m with validity := toString (Int.fdiv (te - ts) 86400) ++ " days" }
        else m
      if env.now > te then { m with status := "Expired" } else m
    | _, _ => m
  else m

/-- Phase 3 of `_extract_esim_data`, applied-bundles part: byte → GB
conversion (dividing by 1024³), last-resort usage override, validity
from the assignment window, and the expiry override of `status`. -/
def phase3_bundles (env : MergeEnv) (trb : Option TRBundles) (m : Merged) : Merged :=
  match trb with
  | none => m
  | some bs =>
    match bs.bundles with
    | [] => m
    | fb :: _ =>
      let planTr := if pyTruthy fb.description then fb.description else fb.name
      let m :=
        if pyTruthy planTr ∧ m.plan_name = "N/A" then { m with plan_name := planTr.getD "" }
        else m
      match firstDataAssignment fb.assignments with
      | none => m
      | some a =>
        let i := a.initialQuantity.getD 0
        let r := a.remainingQuantity.getD 0
        if 0 < i then
          let initial_gb := i / (1024 ^ 3 : ℚ)
          let remaining_gb := r / (1024 ^ 3 : ℚ)
          let consumed_gb := initial_gb - remaining_gb
          let m :=
            if m.data_consumed = "N/A" ∨ m.data_remaining = "N/A" then
              { m with
                  data_capacity := toFixed2 initial_gb ++ " GB"
                  data_consumed := toFixed2 consumed_gb ++ " GB"
                  data_remaining := toFixed2 remaining_gb ++ " GB" }
            else m
          phase3_window env a m
        else m

/-- Phase 3 of `_extract_esim_data`, location part (only touches `apn`). -/
def phase3_location (trl : Option TRLocation) (m : Merged) : Merged :=
  match trl with
  | none => m
  | some l =>
    if pyTruthy l.networkName then
      let nn := l.networkName.getD ""
      let nb := l.networkBrandName.getD ""
      let c := l.country.getD ""
      if nn ≠ "" ∨ nb ≠ "" then
        let base := if nn ≠ "" then nn else nb
        let apnLoc := if c ≠ "" then base ++ " (" ++ c ++ ")" else base
        if m.apn = "N/A" ∨ m.apn = "internet" ∨ m.apn = "wholesale" then
          { m with apn := apnLoc }
        else m
      else m
    else m

/-- `ESIMService._extract_esim_data` (`pulse/esim_service.py`, lines
90-300): the phases in their fixed order.  (The `provider` and
`usage_data` parameters of the Python function are not read by its
body and are omitted.) -/
def extract_esim_data (env : MergeEnv) (order : Option AirHubOrder)
    (activation : Option Activation) (esimcard : Option EsimCheckResult)
    (trd : Option TRDetails) (trb : Option TRBundles) (trl : Option TRLocation) : Merged :=
  phase3_location trl
    (phase3_bundles env trb
      (phase3_details env trd
        (phase2_esimcard esimcard
          (phase1_activation activation
            (phase1_airhub order {})))))

/-- A concrete merge environment: two parseable ISO timestamps
(2024-01-01 and 2024-01-08, as epoch seconds) and a current instant of
2026-01-01. -/
def demoEnv : MergeEnv where
  parseISO := fun s =>
    if s = "2024-01-01T00:00:00Z" then some 1704067200
    else if s = "2024-01-08T00:00:00Z" then some 1704672000
    else none
  now := 1767225600
  fmtEpochMs := fun _ => none

/-- A data assignment already past its end time but with
`initialQuantity = 0`. -/
def expiredZeroAssignment : TRAssignment :=
  { callTypeGroup := some "data", initialQuantity := some 0,
    remainingQuantity := some 0,
    startTime := some "2024-01-01T00:00:00Z", endTime := some "2024-01-08T00:00:00Z" }

/-- An applied-bundles payload carrying `expiredZeroAssignment`. -/
def expiredZeroBundles : TRBundles :=
  { bundles := [{ name := some "esim_1GB_7D_TR_U",
                  assignments := [expiredZeroAssignment] }] }

/-- A data assignment already past its end time, with a positive
initial quantity of 2 GiB. -/
def expiredGBAssignment : TRAssignment :=
  { callTypeGroup := some "data", initialQuantity := some (2 * 1024 ^ 3),
    remainingQuantity := some (1024 ^ 3),
    startTime := some "2024-01-01T00:00:00Z", endTime := some "2024-01-08T00:00:00Z" }

/-- An applied-bundles payload carrying `expiredGBAssignment`. -/
def expiredGBBundles : TRBundles :=
  { bundles := [{ name := some "esim_1GB_7D_TR_U",
                  assignments := [expiredGBAssignment] }] }

/-- The location phase never touches `status` (it only fills `apn`). -/
theorem phase3_location_status (trl : Option TRLocation) (m : Merged) :
    (phase3_location trl m).status = m.status := by
  cases trl with
  | none => rfl
  | some l =>
      simp only [phase3_location]
      split_ifs <;> rfl

/-- The bundles phase forces `status := "Expired"` whenever the first
bundle's first data assignment has a positive initial quantity, nonempty
start and end timestamps that both parse, and the end instant lies
before now. -/
theorem phase3_bundles_expired (env : MergeEnv) (bs : TRBundles) (fb : TRBundle)
    (rest : List TRBundle) (a : TRAssignment) (ts te : Int) (m : Merged)
    (hb : bs.bundles = fb :: rest)
    (ha : firstDataAssignment fb.assignments = some a)
    (hi : 0 < a.initialQuantity.getD 0)
    (hst : a.startTime.getD "" ≠ "")
    (het : a.endTime.getD "" ≠ "")
    (hps : env.parseISO (a.startTime.getD "") = some ts)
    (hpe : env.parseISO (a.endTime.getD "") = some te)
    (hnow : te < env.now) :
    (phase3_bundles env (some bs) m).status = "Expired" := by
  simp only [phase3_bundles, phase3_window, hb, ha, hps, hpe]
  rw [if_pos hi]
  split_ifs <;> first | rfl | tauto

/-- C6 (counterexample): a bundle-provider data assignment whose end
timestamp parses and lies in the past, but whose `initialQuantity` is 0:
the expiry check is nested under `if initial_bytes > 0`, so the merged
status stays at AirHub's `"Active"` instead of the claimed `"Expired"`. -/
theorem expiry_override_counterexample :
    (extract_esim_data demoEnv (some { isActive := true }) none none none
        (some expiredZeroBundles) none).status = "Active" ∧
    demoEnv.parseISO (expiredZeroAssignment.endTime.getD "") = some 1704672000 ∧
    (1704672000 : Int) < demoEnv.now ∧
    (extract_esim_data demoEnv (some { isActive := true }) none none none
        (some expiredZeroBundles) none).status ≠ "Expired" := by
  refine ⟨by decide, by decide, by decide, by decide⟩

/-- C6 (amended): the merged status is forced to `"Expired"` regardless
of any other provider's status whenever the bundle provider's **first**
bundle's **first data assignment** carries a **positive**
`initialQuantity`, a **nonempty start timestamp**, and a nonempty end
timestamp, both timestamps parse, and the end instant is in the past
relative to the current time; if the initial quantity is 0 or the start
timestamp is missing, the expiry check is skipped. -/
theorem expiry_override_amended (env : MergeEnv) (order : Option AirHubOrder)
    (activation : Option Activation) (esimcard : Option EsimCheckResult)
    (trd : Option TRDetails) (trl : Option TRLocation) (bs : TRBundles)
    (fb : TRBundle) (rest : List TRBundle) (a : TRAssignment) (ts te : Int)
    (hb : bs.bundles = fb :: rest)
    (ha : firstDataAssignment fb.assignments = some a)
    (hi : 0 < a.initialQuantity.getD 0)
    (hst : a.startTime.getD "" ≠ "")
    (het : a.endTime.getD "" ≠ "")
    (hps : env.parseISO (a.startTime.getD "") = some ts)
    (hpe : env.parseISO (a.endTime.getD "") = some te)
    (hnow : te < env.now) :
    (extract_esim_data env order activation esimcard trd (some bs) trl).status
      = "Expired" := by
  rw [extract_esim_data, phase3_location_status]
  exact phase3_bundles_expired env bs fb rest a ts te _ hb ha hi hst het hps hpe hnow

/-- C6 (witness): the amended theorem applied to a concrete expired
bundle (initial 2 GiB, end 2024-01-08, now 2026-01-01) merged over an
AirHub record that reports `Active`. -/
theorem expiry_override_amended_witness :
    (extract_esim_data demoEnv (some { isActive := true }) none none none
        (some expiredGBBundles) none).status = "Expired" :=
  expiry_override_amended demoEnv (some { isActive := true }) none none none none
    expiredGBBundles { name := some "esim_1GB_7D_TR_U", assignments := [expiredGBAssignment] }
    [] expiredGBAssignment 1704067200 1704672000
    (by decide) (by decide) (by decide) (by decide) (by decide)
    (by decide) (by decide) (by decide)

/-- The window tail only touches `validity` and `status`, never the
data-quantity fields. -/
theorem phase3_window_preserves_data (env : MergeEnv) (a : TRAssignment) (m : Merged) :
    (phase3_window env a m).data_consumed = m.data_consumed ∧
    (phase3_window env a m).data_remaining = m.data_remaining ∧
    (phase3_window env a m).data_capacity = m.data_capacity := by
  simp only [phase3_window]
  split
  · split
    · split_ifs <;> exact ⟨rfl, rfl, rfl⟩
    · exact ⟨rfl, rfl, rfl⟩
  · exact ⟨rfl, rfl, rfl⟩

/-- C9: for every bundle-provider data assignment used by the merge (the
first data assignment of the first bundle, with a positive byte count),
whenever the usage override fires, byte quantities are divided by 1024³
before the subtraction (the reported consumed quantity equals the
formatted `(initial − remaining) / 1024³`, exactly, because on exact
arithmetic `i/c − r/c = (i − r)/c`); in particular for
`initial = 2·1024³` bytes and `remaining = 1·1024³` bytes the merged
record reports `data_consumed = "1.00 GB"` and
`data_remaining = "1.00 GB"`. -/
theorem travelroam_gb_conversion (env : MergeEnv) (bs : TRBundles) (fb : TRBundle)
    (rest : List TRBundle) (a : TRAssignment) (m : Merged)
    (hb : bs.bundles = fb :: rest)
    (ha : firstDataAssignment fb.assignments = some a)
    (hi : 0 < a.initialQuantity.getD 0)
    (hover : m.data_consumed = "N/A" ∨ m.data_remaining = "N/A") :
    ((phase3_bundles env (some bs) m).data_consumed
        = toFixed2 ((a.initialQuantity.getD 0 - a.remainingQuantity.getD 0)
            / (1024 ^ 3 : ℚ)) ++ " GB" ∧
      (phase3_bundles env (some bs) m).data_remaining
        = toFixed2 (a.remainingQuantity.getD 0 / (1024 ^ 3 : ℚ)) ++ " GB" ∧
      (phase3_bundles env (some bs) m).data_capacity
        = toFixed2 (a.initialQuantity.getD 0 / (1024 ^ 3 : ℚ)) ++ " GB") ∧
    ((extract_esim_data demoEnv none none none none (some expiredGBBundles) none).data_consumed
        = "1.00 GB" ∧
      (extract_esim_data demoEnv none none none none
          (some expiredGBBundles) none).data_remaining = "1.00 GB") := by
  constructor
  · simp only [phase3_bundles, hb, ha]
    rw [if_pos hi]
    rw [← div_sub_div_same]
    split_ifs <;>
      exact ⟨(phase3_window_preserves_data env a _).1,
        (phase3_window_preserves_data env a _).2.1,
        (phase3_window_preserves_data env a _).2.2⟩
  · exact ⟨by decide, by decide⟩

/-- C9 (witness): the conversion theorem applied to the concrete
2 GiB / 1 GiB assignment over the empty merged record. -/
theorem travelroam_gb_conversion_witness :
    ((phase3_bundles demoEnv (some expiredGBBundles) {}).data_consumed
        = toFixed2 ((expiredGBAssignment.initialQuantity.getD 0
              - expiredGBAssignment.remainingQuantity.getD 0) / (1024 ^ 3 : ℚ)) ++ " GB" ∧
      (phase3_bundles demoEnv (some expiredGBBundles) {}).data_remaining
        = toFixed2 (expiredGBAssignment.remainingQuantity.getD 0 / (1024 ^ 3 : ℚ)) ++ " GB" ∧
      (phase3_bundles demoEnv (some expiredGBBundles) {}).data_capacity
        = toFixed2 (expiredGBAssignment.initialQuantity.getD 0 / (1024 ^ 3 : ℚ)) ++ " GB") ∧
    ((extract_esim_data demoEnv none none none none (some expiredGBBundles) none).data_consumed
        = "1.00 GB" ∧
      (extract_esim_data demoEnv none none none none
          (some expiredGBBundles) none).data_remaining = "1.00 GB") :=
  travelroam_gb_conversion demoEnv expiredGBBundles
    { name := some "esim_1GB_7D_TR_U", assignments := [expiredGBAssignment] } []
    expiredGBAssignment {} (by decide) (by decide) (by decide) (by decide)

/-! ## Reconciliation coordinators

`try_fetch_from_all_apis` (`script_enhanced.py`, lines 1181-1373) runs
the three provider lookups with every HTTP call wrapped in the
provider's own `try`/`except`; `try_fetch_from_all_apis_parallel`
(`script_optimized.py`) submits one task per provider, each of which
catches its own exceptions and reduces them to a present/absent outcome.
The HTTP call results are parameters (`Except`): a per-task timeout on
`future.result` has the same observable effect as a task exception (the
provider counts as not found) and is subsumed by an `.error` outcome. -/

/-- ICCID normalization without `strip()`, as used by the eSIMCard
bundle-to-ICCID matching inside the serial coordinator (line 1256). -/
def normalizeNoStrip (s : String) : String :=
  pyLower ⟨s.data.filter (fun c => ¬ (c = ' ' ∨ c = '-'))⟩

/-- The `esimcard_get_esim_details` response (the only key read
downstream is `in_use_packages`). -/
structure EsimDetails where
  in_use_packages : List EsimPackage := []
deriving Repr, DecidableEq

/-- The HTTP outcomes the serial coordinator can observe for one query,
in source order: AirHub login+orders, AirHub activation details,
eSIMCard login+listing, eSIMCard details / usage / bundles, TravelRoam
details / applied bundles / location. -/
structure SerialOutcomes where
  airhubFetch : Except PyErr (List AirHubOrder) := .error ⟨"down"⟩
  airhubActivationFetch : Except PyErr (List Activation) := .error ⟨"down"⟩
  esimcardFetch : Except PyErr (List EsimCardSim) := .error ⟨"down"⟩
  esimcardDetails : Except PyErr EsimDetails := .error ⟨"down"⟩
  esimcardUsage : Except PyErr EsimUsage := .error ⟨"down"⟩
  esimcardBundles : Except PyErr (List EsimPackage) := .error ⟨"down"⟩
  travelroamDetails : Except PyErr (Option TRDetails) := .error ⟨"down"⟩
  travelroamBundles : Except PyErr TRBundles := .error ⟨"down"⟩
  travelroamLocation : Except PyErr TRLocation := .error ⟨"down"⟩

/-- The AirHub block of the serial coordinator (lines 1198-1230): any
exception is caught at this provider's boundary and reduced to absent;
the activation fetch failure is swallowed by its own inner `try`. -/
def serialAirhub (iccid : String) (o : SerialOutcomes) :
    Option (AirHubOrder × Option Activation) :=
  match o.airhubFetch with
  | .error _ => none
  | .ok orders =>
    match find_order_by_iccid orders iccid with
    | none => none
    | some order =>
        let activation : Option Activation :=
          if pyTruthy order.orderId then
            match o.airhubActivationFetch with
            | .ok l => some (l.headD {})
            | .error _ => none
          else none
        some (order, activation)

/-- The AirHub completeness score of the serial coordinator (lines
1221-1225). -/
def serialAirhubScore : Option (AirHubOrder × Option Activation) → Nat
  | none => 0
  | some (order, _) =>
      calculate_data_completeness (some (order.dataConsumed.getD "N/A"))
        (some (order.dataRemaining.getD "N/A"))
        (some (if order.isActive then "Active" else "Inactive"))

/-- The eSIMCard block of the serial coordinator (lines 1232-1287):
lookup, then details → usage → bundles in order inside one inner `try`
(an exception keeps whatever was already assigned), then the
bundle-to-ICCID match that backfills `in_use_packages`. -/
def serialEsimcard (iccid : String) (o : SerialOutcomes) :
    Option (EsimCardSim × Option EsimDetails × Option EsimUsage) :=
  match o.esimcardFetch with
  | .error _ => none
  | .ok esims =>
    match find_esimcard_by_iccid esims iccid with
    | none => none
    | some esim =>
        if pyTruthy esim.id then
          match o.esimcardDetails with
          | .error _ => some (esim, none, none)
          | .ok dets =>
            match o.esimcardUsage with
            | .error _ => some (esim, some dets, none)
            | .ok us =>
              match o.esimcardBundles with
              | .error _ => some (esim, some dets, some us)
              | .ok bl =>
                  let matched := bl.find? fun b =>
                    pyTruthy b.iccid &&
                      pyIn (normalizeNoStrip iccid) (normalizeNoStrip (b.iccid.getD ""))
                  match matched with
                  | none => some (esim, some dets, some us)
                  | some b =>
                      let dets2 :=
                        if dets.in_use_packages.isEmpty then
                          { dets with in_use_packages := [b] }
                        else dets
                      some (esim, some dets2, some us)
        else some (esim, none, none)

/-- The eSIMCard completeness score of the serial coordinator (lines
1266-1282): `usage or {}`, consumed from `float(initial) − float(rem)`
rendered through `str`. -/
def esimcardUsageStrings (usage : EsimUsage) : Option String × Option String :=
  match usage.initial_data_quantity, usage.rem_data_quantity with
  | some i, some r => (some (pyNumStr (i - r)), some (pyNumStr r))
  | _, _ => (some "N/A", some "N/A")

def serialEsimcardScore :
    Option (EsimCardSim × Option EsimDetails × Option EsimUsage) → Nat
  | none => 0
  | some (esim, _, usageOpt) =>
      let dcdr := esimcardUsageStrings (usageOpt.getD {})
      calculate_data_completeness dcdr.1 dcdr.2 (some (esim.status.getD "Unknown"))

/-- The TravelRoam block of the serial coordinator (lines 1289-1338):
found iff the details fetch succeeded, is truthy and carries a truthy
`iccid`; bundle and location failures are swallowed by inner `try`s. -/
def serialTravelroam (iccid : String) (o : SerialOutcomes) :
    Option (TRDetails × Option TRBundles × Option TRLocation) :=
  match o.travelroamDetails with
  | .error _ => none
  | .ok none => none
  | .ok (some d) =>
      if pyTruthy d.iccid then
        let bundles := match o.travelroamBundles with | .ok b => some b | .error _ => none
        let location := match o.travelroamLocation with | .ok l => some l | .error _ => none
        some (d, bundles, location)
      else none

/-- The TravelRoam completeness score of the serial coordinator (lines
1312-1333): from the first data assignment of the first applied bundle,
bytes subtracted first, then divided by 1024³ and rendered `%.2f`. -/
def trUsageStringsList : List TRBundle → Option String × Option String
  | [] => (some "N/A", some "N/A")
  | fb :: _ =>
    match firstDataAssignment fb.assignments with
    | some a =>
        let i := a.initialQuantity.getD 0
        let r := a.remainingQuantity.getD 0
        if 0 < i then
          (some (toFixed2 ((i - r) / (1024 ^ 3 : ℚ))),
           some (toFixed2 (r / (1024 ^ 3 : ℚ))))
        else (some "N/A", some "N/A")
    | none => (some "N/A", some "N/A")

def trUsageStrings : Option TRBundles → Option String × Option String
  | some bs => trUsageStringsList bs.bundles
  | none => (some "N/A", some "N/A")

def serialTravelroamScore :
    Option (TRDetails × Option TRBundles × Option TRLocation) → Nat
  | none => 0
  | some (d, bundlesOpt, _) =>
      let dcdr := trUsageStrings bundlesOpt
      calculate_data_completeness dcdr.1 dcdr.2 (some (d.profileStatus.getD "Unknown"))

/-- The comparison loop (lines 1340-1353): iterate the results map in
its fixed insertion order with `best_score = 0`, updating only on a
found entry with a strictly greater score. -/
def selectBest (entries : List (APIProvider × Bool × Nat)) : Option APIProvider × Nat :=
  entries.foldl
    (fun best e => if e.2.1 = true ∧ best.2 < e.2.2 then (some e.1, e.2.2) else best)
    (none, 0)

/-- The 8-tuple returned by the serial coordinator. -/
structure FetchResult where
  provider : Option APIProvider := none
  airhubOrder : Option AirHubOrder := none
  airhubActivation : Option Activation := none
  esimcardData : Option EsimDetails := none
  usageData : Option EsimUsage := none
  travelroamData : Option TRDetails := none
  travelroamBundles : Option TRBundles := none
  travelroamLocation : Option TRLocation := none
deriving Repr, DecidableEq

/-- `try_fetch_from_all_apis` from `script_enhanced.py` (lines
1181-1373): the three provider blocks, the comparison loop, and either
the all-`None` tuple (all-providers-miss, returned as a normal value) or
the tuple of every found provider's payloads with the selected primary. -/
def try_fetch_from_all_apis (iccid : String) (o : SerialOutcomes) : FetchResult :=
  let ra := serialAirhub iccid o
  let re := serialEsimcard iccid o
  let rt := serialTravelroam iccid o
  if ra.isSome ∨ re.isSome ∨ rt.isSome then
    { provider :=
        (selectBest [(APIProvider.AIRHUB, ra.isSome, serialAirhubScore ra),
          (APIProvider.ESIMCARD, re.isSome, serialEsimcardScore re),
          (APIProvider.TRAVELROAM, rt.isSome, serialTravelroamScore rt)]).1
      airhubOrder := ra.map Prod.fst
      airhubActivation := ra.bind Prod.snd
      esimcardData := re.bind fun x => x.2.1
      usageData := re.bind fun x => x.2.2
      travelroamData := rt.map fun x => x.1
      travelroamBundles := rt.bind fun x => x.2.1
      travelroamLocation := rt.bind fun x => x.2.2 }
  else {}

/-- The `esimcard_get_esim_by_iccid` direct-lookup response used by the
parallel coordinator (the keys `check_esimcard_provider` reads). -/
structure EsimByIccid where
  sim : EsimCardSim := {}
  in_use_packages : List EsimPackage := []
  overall_usage : Option EsimUsage := none
deriving Repr, DecidableEq

/-- The HTTP outcomes one parallel run can observe
(`script_optimized.py`): the AirHub activation fetch is *not* inside an
inner `try` there, so its failure makes the whole AirHub task count as
not found. -/
structure ParallelOutcomes where
  airhubFetch : Except PyErr (List AirHubOrder) := .error ⟨"down"⟩
  airhubActivationFetch : Except PyErr (Option Activation) := .error ⟨"down"⟩
  esimcardDirect : Except PyErr (Option EsimByIccid) := .error ⟨"down"⟩
  travelroamDetails : Except PyErr (Option TRDetails) := .error ⟨"down"⟩
  travelroamBundles : Except PyErr TRBundles := .error ⟨"down"⟩
  travelroamLocation : Except PyErr TRLocation := .error ⟨"down"⟩

/-- `check_airhub_provider` (`script_optimized.py`, lines 18-38). -/
def check_airhub_provider (iccid : String) (o : ParallelOutcomes) :
    Option (AirHubOrder × Option Activation) :=
  match o.airhubFetch with
  | .error _ => none
  | .ok orders =>
    match find_order_by_iccid orders iccid with
    | none => none
    | some order =>
        match o.airhubActivationFetch with
        | .error _ => none
        | .ok act => some (order, act)

/-- `check_esimcard_provider` (`script_optimized.py`, lines 41-72): any
exception — including an `AuthenticationError` from `esimcard_login` —
is caught at this task's boundary and reduced to a not-found outcome. -/
def check_esimcard_provider (iccid : String) (o : ParallelOutcomes) :
    Option EsimCheckResult :=
  match o.esimcardDirect with
  | .error _ => none
  | .ok none => none
  | .ok (some data) =>
      some { esim := data.sim, packages := data.in_use_packages,
             usage := data.overall_usage }

/-- `check_travelroam_provider` (`script_optimized.py`, lines 75-90):
details, bundles and location are all fetched before the found test, so
any of the three raising makes the provider count as not found. -/
def check_travelroam_provider (iccid : String) (o : ParallelOutcomes) :
    Option (TRDetails × TRBundles × TRLocation) :=
  match o.travelroamDetails, o.travelroamBundles, o.travelroamLocation with
  | .ok (some d), .ok b, .ok l => some (d, b, l)
  | _, _, _ => none

/-- The 8-tuple returned by the parallel coordinator. -/
structure ParallelResult where
  provider : APIProvider
  airhubOrder : Option AirHubOrder := none
  airhubActivation : Option Activation := none
  esimcardEsim : Option EsimCheckResult := none
  esimcardUsage : Option EsimUsage := none
  travelroamData : Option TRDetails := none
  travelroamBundles : Option TRBundles := none
  travelroamLocation : Option TRLocation := none
deriving Repr, DecidableEq

/-- `try_fetch_from_all_apis_parallel` from `script_optimized.py` (lines
93-172): the three task results are collected in the fixed iteration
order airhub, esimcard, travelroam, `found_provider` being overwritten
by each found task (so the *last* found provider in that order wins, with
no completeness scoring), and an all-providers-miss raises
`OrderNotFoundError` instead of returning. -/
def try_fetch_from_all_apis_parallel (iccid : String) (o : ParallelOutcomes) :
    Except PyErr ParallelResult :=
  let ra := check_airhub_provider iccid o
  let re := check_esimcard_provider iccid o
  let rt := check_travelroam_provider iccid o
  let found : Option APIProvider :=
    if rt.isSome then some .TRAVELROAM
    else if re.isSome then some .ESIMCARD
    else if ra.isSome then some .AIRHUB
    else none
  match found with
  | none => .error ⟨"eSIM with ICCID " ++ iccid ++ " not found in any API provider"⟩
  | some p =>
      .ok { provider := p
            airhubOrder := ra.map Prod.fst
            airhubActivation := ra.bind Prod.snd
            esimcardEsim := re
            esimcardUsage := re.bind fun r => r.usage
            travelroamData := rt.map fun x => x.1
            travelroamBundles := rt.map fun x => x.2.1
            travelroamLocation := rt.map fun x => x.2.2 }

/-- Any record whose `data_consumed` argument is a present string scores
at least the +30 presence bonus. -/
theorem calc_ge30 (x : String) (y z : Option String) :
    30 ≤ calculate_data_completeness (some x) y z := by
  rcases y with _ | s₁ <;> rcases z with _ | s₂ <;>
    simp only [calculate_data_completeness] <;> split_ifs <;> simp_all <;> omega

/-- Like `calc_ge30`, for a pair whose first component is present. -/
theorem calc_ge30_pair (p : Option String × Option String)
    (hp : p.1.isSome = true) (z : Option String) :
    30 ≤ calculate_data_completeness p.1 p.2 z := by
  rcases p with ⟨_ | x, q⟩
  · simp at hp
  · exact calc_ge30 x q z

/-- The first usage string of the eSIMCard scorer is always present. -/
theorem esimcardUsageStrings_fst_isSome (u : EsimUsage) :
    (esimcardUsageStrings u).1.isSome = true := by
  rcases h1 : u.initial_data_quantity with _ | i <;>
    rcases h2 : u.rem_data_quantity with _ | r <;>
    simp [esimcardUsageStrings, h1, h2]

/-- The first usage string of the TravelRoam scorer is always present. -/
theorem trUsageStrings_fst_isSome (b : Option TRBundles) :
    (trUsageStrings b).1.isSome = true := by
  rcases b with _ | bs
  · simp [trUsageStrings]
  · simp only [trUsageStrings]
    rcases hbl : bs.bundles with _ | ⟨fb, rest⟩
    · simp [trUsageStringsList]
    · simp only [trUsageStringsList]
      rcases hfa : firstDataAssignment fb.assignments with _ | a
      · simp
      · by_cases hq : 0 < a.initialQuantity.getD 0 <;> simp [hq]

/-- A found AirHub record scores at least 30. -/
theorem serialAirhubScore_pos (res : Option (AirHubOrder × Option Activation))
    (h : res.isSome = true) : 30 ≤ serialAirhubScore res := by
  rcases res with _ | ⟨order, act⟩
  · simp at h
  · simp only [serialAirhubScore]
    exact calc_ge30 _ _ _

/-- A found eSIMCard record scores at least 30. -/
theorem serialEsimcardScore_pos
    (res : Option (EsimCardSim × Option EsimDetails × Option EsimUsage))
    (h : res.isSome = true) : 30 ≤ serialEsimcardScore res := by
  rcases res with _ | ⟨esim, dets, us⟩
  · simp at h
  · simp only [serialEsimcardScore]
    exact calc_ge30_pair _ (esimcardUsageStrings_fst_isSome _) _

/-- A found TravelRoam record scores at least 30. -/
theorem serialTravelroamScore_pos
    (res : Option (TRDetails × Option TRBundles × Option TRLocation))
    (h : res.isSome = true) : 30 ≤ serialTravelroamScore res := by
  rcases res with _ | ⟨d, bopt, loc⟩
  · simp at h
  · simp only [serialTravelroamScore]
    exact calc_ge30_pair _ (trUsageStrings_fst_isSome _) _

/-- The selection rule as the claim words it for the serial coordinator:
the first provider, in the fixed enumeration order AirHub, eSIMCard,
TravelRoam, that was found and whose score equals the maximum over the
found providers. -/
def spec_primary (fa fe ft : Bool) (sa se st : Nat) : Option APIProvider :=
  let m := max (if fa then sa else 0) (max (if fe then se else 0) (if ft then st else 0))
  if fa = true ∧ sa = m then some .AIRHUB
  else if fe = true ∧ se = m then some .ESIMCARD
  else if ft = true ∧ st = m then some .TRAVELROAM
  else none

/-- The selection the parallel coordinator actually performs: the last
provider found in the fixed iteration order airhub, esimcard,
travelroam, with no scoring. -/
def spec_last_found (fa fe ft : Bool) : Option APIProvider :=
  if ft then some .TRAVELROAM
  else if fe then some .ESIMCARD
  else if fa then some .AIRHUB
  else none

/-- The comparison loop equals the claimed strictly-highest-score
selection, provided every found provider has a positive score (true of
all three scoring paths, which always grant the +30 presence bonus). -/
theorem selectBest_eq_spec (fa fe ft : Bool) (sa se st : Nat)
    (ha : fa = true → 0 < sa) (he : fe = true → 0 < se) (ht : ft = true → 0 < st) :
    (selectBest [(APIProvider.AIRHUB, fa, sa), (APIProvider.ESIMCARD, fe, se),
        (APIProvider.TRAVELROAM, ft, st)]).1
      = spec_primary fa fe ft sa se st := by
  cases fa <;> cases fe <;> cases ft <;>
    simp only [selectBest, spec_primary, List.foldl_cons, List.foldl_nil, Nat.max_def,
      Bool.false_eq_true, Bool.true_eq_false, false_and, true_and, and_false, and_true,
      if_false, if_true, ite_false, ite_true, eq_self_iff_true, not_false_iff] <;>
    simp only [forall_const, false_implies, true_implies] at ha he ht <;>
    split_ifs <;> first | rfl | omega | simp_all

set_option maxHeartbeats 1000000 in
/-- If AirHub was found, the claimed selection always designates some
primary (no positivity hypotheses needed: the maximum is attained by a
found provider). -/
theorem spec_primary_isSome_airhub (fe ft : Bool) (sa se st : Nat) :
    (spec_primary true fe ft sa se st).isSome = true := by
  simp only [spec_primary, Nat.max_def]
  cases fe <;> cases ft <;>
    simp only [if_true, if_false, Bool.false_eq_true, Bool.true_eq_false, true_and,
      false_and, and_true, and_false, eq_self_iff_true, ite_true, ite_false] <;>
    split_ifs <;> first | rfl | omega | simp_all

/-- The serial coordinator's selected provider equals the claimed
strictly-highest-score selection over the found providers. -/
theorem try_fetch_provider_eq (iccid : String) (o : SerialOutcomes) :
    (try_fetch_from_all_apis iccid o).provider
      = spec_primary (serialAirhub iccid o).isSome (serialEsimcard iccid o).isSome
          (serialTravelroam iccid o).isSome
          (serialAirhubScore (serialAirhub iccid o))
          (serialEsimcardScore (serialEsimcard iccid o))
          (serialTravelroamScore (serialTravelroam iccid o)) := by
  simp only [try_fetch_from_all_apis]
  split_ifs with h
  · exact selectBest_eq_spec _ _ _ _ _ _
      (fun hh => by have := serialAirhubScore_pos _ hh; omega)
      (fun hh => by have := serialEsimcardScore_pos _ hh; omega)
      (fun hh => by have := serialTravelroamScore_pos _ hh; omega)
  · push_neg at h
    obtain ⟨h1, h23⟩ := h
    obtain ⟨h2, h3⟩ := h23
    simp only [Bool.not_eq_true] at h1 h2 h3
    simp [spec_primary, h1, h2, h3]

/-- The parallel coordinator's returned provider is always the last
provider found in the fixed iteration order, with no scoring. -/
theorem parallel_provider_eq (iccid : String) (po : ParallelOutcomes) (r : ParallelResult)
    (h : try_fetch_from_all_apis_parallel iccid po = .ok r) :
    some r.provider
      = spec_last_found (check_airhub_provider iccid po).isSome
          (check_esimcard_provider iccid po).isSome
          (check_travelroam_provider iccid po).isSome := by
  simp only [try_fetch_from_all_apis_parallel] at h
  by_cases h3 : (check_travelroam_provider iccid po).isSome = true
  · simp only [h3, if_true] at h
    simp only [Except.ok.injEq] at h
    subst h
    simp [spec_last_found, h3]
  · simp only [Bool.not_eq_true] at h3
    simp only [h3, Bool.false_eq_true, if_false] at h
    by_cases h2 : (check_esimcard_provider iccid po).isSome = true
    · simp only [h2, if_true] at h
      simp only [Except.ok.injEq] at h
      subst h
      simp [spec_last_found, h3, h2]
    · simp only [Bool.not_eq_true] at h2
      simp only [h2, Bool.false_eq_true, if_false] at h
      by_cases h1 : (check_airhub_provider iccid po).isSome = true
      · simp only [h1, if_true] at h
        simp only [Except.ok.injEq] at h
        subst h
        simp [spec_last_found, h3, h2, h1]
      · simp only [Bool.not_eq_true] at h1
        simp only [h1, Bool.false_eq_true, if_false] at h
        exact absurd h (by simp)

/-- C3 (counterexample): with none of the three providers finding the
ICCID, the serial entry point returns the all-`None` tuple as a normal
value, but `try_fetch_from_all_apis_parallel` raises
`OrderNotFoundError` — an exception, not a normal negative result. -/
theorem all_providers_miss_counterexample :
    try_fetch_from_all_apis "8988307000001234567" {} = {} ∧
    try_fetch_from_all_apis_parallel "8988307000001234567" {}
      = .error ⟨"eSIM with ICCID 8988307000001234567 not found in any API provider"⟩ :=
  ⟨rfl, rfl⟩

/-- C3 (amended): for every ICCID for which none of the three providers
finds a record, `try_fetch_from_all_apis` returns the all-`None` tuple —
a normal negative result — while `try_fetch_from_all_apis_parallel`
raises `OrderNotFoundError` instead of returning. -/
theorem all_providers_miss_amended :
    (∀ iccid o, serialAirhub iccid o = none → serialEsimcard iccid o = none →
      serialTravelroam iccid o = none → try_fetch_from_all_apis iccid o = {}) ∧
    (∀ iccid po, check_airhub_provider iccid po = none →
      check_esimcard_provider iccid po = none →
      check_travelroam_provider iccid po = none →
      try_fetch_from_all_apis_parallel iccid po
        = .error ⟨"eSIM with ICCID " ++ iccid ++ " not found in any API provider"⟩) := by
  constructor
  · intro iccid o h1 h2 h3
    simp [try_fetch_from_all_apis, h1, h2, h3]
  · intro iccid po h1 h2 h3
    simp [try_fetch_from_all_apis_parallel, h1, h2, h3]

/-- C3 (witness): the amended theorem applied to a run in which every
provider call fails (every outcome is an exception, hence not found). -/
theorem all_providers_miss_amended_witness :
    try_fetch_from_all_apis "89777" {} = {} ∧
    try_fetch_from_all_apis_parallel "89777" {}
      = .error ⟨"eSIM with ICCID " ++ "89777" ++ " not found in any API provider"⟩ :=
  ⟨all_providers_miss_amended.1 "89777" {} rfl rfl rfl,
   all_providers_miss_amended.2 "89777" {} rfl rfl rfl⟩

/-- An AirHub order with complete usage data (completeness score 150). -/
def richAirhubOrder : AirHubOrder :=
  { orderId := some "A1", simID := some "89883", isActive := true,
    dataConsumed := some "1.50 GB", dataRemaining := some "0.50 GB" }

/-- A run in which AirHub (score 150) and TravelRoam (score 30) both
find the ICCID, as the parallel coordinator sees it. -/
def contrastParallel : ParallelOutcomes :=
  { airhubFetch := .ok [richAirhubOrder], airhubActivationFetch := .ok none,
    travelroamDetails := .ok (some { iccid := some "89883" }),
    travelroamBundles := .ok {}, travelroamLocation := .ok {} }

/-- The same run as the serial coordinator sees it. -/
def contrastSerial : SerialOutcomes :=
  { airhubFetch := .ok [richAirhubOrder], airhubActivationFetch := .ok [],
    travelroamDetails := .ok (some { iccid := some "89883" }),
    travelroamBundles := .ok {}, travelroamLocation := .ok {} }

/-- C4 (counterexample): on a query found by both AirHub (completeness
score 150) and TravelRoam (score 30), the parallel entry point
designates TravelRoam — the *last* found provider, not the
strictly-highest-scoring one — while the serial entry point selects
AirHub. -/
theorem primary_selection_counterexample :
    ((try_fetch_from_all_apis_parallel "89883" contrastParallel).toOption.map
        fun r => r.provider) = some APIProvider.TRAVELROAM ∧
    serialAirhubScore (serialAirhub "89883" contrastSerial) = 150 ∧
    serialTravelroamScore (serialTravelroam "89883" contrastSerial) = 30 ∧
    (try_fetch_from_all_apis "89883" contrastSerial).provider = some APIProvider.AIRHUB ∧
    APIProvider.TRAVELROAM ≠ APIProvider.AIRHUB := by
  refine ⟨by decide, by decide, by decide, by decide, by decide⟩

/-- C4 (amended): the serial coordinator computes each found record's
completeness score and selects as primary the provider with the strictly
highest score, ties keeping the first found provider in the fixed
enumeration order AirHub, eSIMCard, TravelRoam; the parallel coordinator
performs no scoring and designates as primary the last provider found in
that same fixed order. -/
theorem primary_selection_amended :
    (∀ iccid o,
      (try_fetch_from_all_apis iccid o).provider
        = spec_primary (serialAirhub iccid o).isSome (serialEsimcard iccid o).isSome
            (serialTravelroam iccid o).isSome
            (serialAirhubScore (serialAirhub iccid o))
            (serialEsimcardScore (serialEsimcard iccid o))
            (serialTravelroamScore (serialTravelroam iccid o))) ∧
    (∀ iccid po r, try_fetch_from_all_apis_parallel iccid po = .ok r →
      some r.provider
        = spec_last_found (check_airhub_provider iccid po).isSome
            (check_esimcard_provider iccid po).isSome
            (check_travelroam_provider iccid po).isSome) :=
  ⟨try_fetch_provider_eq, parallel_provider_eq⟩

/-- The parallel result of the contrast run. -/
def contrastParallelResult : ParallelResult :=
  { provider := .TRAVELROAM, airhubOrder := some richAirhubOrder,
    airhubActivation := none, esimcardEsim := none, esimcardUsage := none,
    travelroamData := some { iccid := some "89883" },
    travelroamBundles := some {}, travelroamLocation := some {} }

/-- C4 (witness): the amended theorem applied to the contrast run. -/
theorem primary_selection_amended_witness :
    (try_fetch_from_all_apis "89883" contrastSerial).provider
      = spec_primary (serialAirhub "89883" contrastSerial).isSome
          (serialEsimcard "89883" contrastSerial).isSome
          (serialTravelroam "89883" contrastSerial).isSome
          (serialAirhubScore (serialAirhub "89883" contrastSerial))
          (serialEsimcardScore (serialEsimcard "89883" contrastSerial))
          (serialTravelroamScore (serialTravelroam "89883" contrastSerial)) ∧
    some contrastParallelResult.provider
      = spec_last_found (check_airhub_provider "89883" contrastParallel).isSome
          (check_esimcard_provider "89883" contrastParallel).isSome
          (check_travelroam_provider "89883" contrastParallel).isSome :=
  ⟨primary_selection_amended.1 "89883" contrastSerial,
   primary_selection_amended.2 "89883" contrastParallel contrastParallelResult rfl⟩

/-- C7: a failure raised inside one provider's lookup is caught at that
provider's boundary and reduced to an absent result for that provider
only; in particular, when the eSIMCard fetch raises (e.g. an
`AuthenticationError` from `esimcard_login`) while AirHub and TravelRoam
both find the ICCID, reconciliation still returns a result designating a
primary and carrying the two successful providers' payloads, with the
eSIMCard slots absent. -/
theorem fault_isolation (iccid : String) (o : SerialOutcomes) (po : ParallelOutcomes)
    (e e' : PyErr) (hse : o.esimcardFetch = .error e)
    (hpe : po.esimcardDirect = .error e') :
    serialEsimcard iccid o = none ∧
    check_esimcard_provider iccid po = none ∧
    (∀ ra rt, serialAirhub iccid o = some ra → serialTravelroam iccid o = some rt →
      (try_fetch_from_all_apis iccid o).provider.isSome = true ∧
      (try_fetch_from_all_apis iccid o).airhubOrder = some ra.1 ∧
      (try_fetch_from_all_apis iccid o).airhubActivation = ra.2 ∧
      (try_fetch_from_all_apis iccid o).travelroamData = some rt.1 ∧
      (try_fetch_from_all_apis iccid o).esimcardData = none ∧
      (try_fetch_from_all_apis iccid o).usageData = none) := by
  have hnone : serialEsimcard iccid o = none := by
    simp [serialEsimcard, hse]
  refine ⟨hnone, by simp [check_esimcard_provider, hpe], ?_⟩
  intro ra rt h1 h2
  constructor
  · rw [try_fetch_provider_eq]
    rw [h1]
    exact spec_primary_isSome_airhub _ _ _ _ _
  · have hor : (serialAirhub iccid o).isSome = true ∨
        (serialEsimcard iccid o).isSome = true ∨
        (serialTravelroam iccid o).isSome = true := by
      simp [h1]
    simp only [try_fetch_from_all_apis]
    rw [if_pos (by simp [h1] : ((serialAirhub iccid o).isSome
      ∨ (serialEsimcard iccid o).isSome ∨ (serialTravelroam iccid o).isSome : Prop))]
    simp [h1, h2, hnone]

/-- C7 (witness): the fault-isolation theorem applied to the contrast
run, whose eSIMCard outcomes are the default raised exception. -/
theorem fault_isolation_witness :
    serialEsimcard "89883" contrastSerial = none ∧
    check_esimcard_provider "89883" contrastParallel = none ∧
    ((try_fetch_from_all_apis "89883" contrastSerial).provider.isSome = true ∧
      (try_fetch_from_all_apis "89883" contrastSerial).airhubOrder = some richAirhubOrder ∧
      (try_fetch_from_all_apis "89883" contrastSerial).airhubActivation
        = some ({} : Activation) ∧
      (try_fetch_from_all_apis "89883" contrastSerial).travelroamData
        = some { iccid := some "89883" } ∧
      (try_fetch_from_all_apis "89883" contrastSerial).esimcardData = none ∧
      (try_fetch_from_all_apis "89883" contrastSerial).usageData = none) :=
  have h := fault_isolation "89883" contrastSerial contrastParallel
    ⟨"down"⟩ ⟨"down"⟩ rfl rfl
  ⟨h.1, h.2.1,
    h.2.2 (richAirhubOrder, some ({} : Activation))
      ({ iccid := some "89883" }, some ({} : TRBundles), some ({} : TRLocation)) rfl rfl⟩

end ESim
